import Mathlib

/-!
Verification of the RapidAPI Node.js SDK client (`src/index.js`) against its
natural-language specification.  The development is a shallow embedding of the
two call paths of the `RapidAPI` class:

* `call` (BlockInvoker): the response handler on lines 87-103, and the
  Registrar `r.on` on lines 106-115;
* `listen` (EventSubscriber): the channel identity on line 126, the
  token-exchange request on lines 131-141, its response handler on lines
  142-145, and the socket hooks `onmessage` / `onopen` on lines 146-162.

JavaScript runtime values that may flow through these handlers are modelled by
the inductive type `JSVal`.  `JSON.parse` of the standard library is not
re-implemented: wherever the code parses a string, the embedding carries the
parse outcome (`Option JSVal`, `none` standing for a thrown SyntaxError)
alongside the raw text.  JavaScript property tables are modelled as associative
lists; prototype-chain shadowing of `hasOwnProperty` is out of scope, but the
TypeError thrown by property access on `null`/`undefined` receivers is
modelled faithfully, via `Except`.
-/

namespace RapidAPI

/-- JavaScript values as produced by `JSON.parse` and property access
(`undef` is the JavaScript value `undefined`).  Numbers are modelled as
integers; none of the verified code paths computes with numbers. -/
inductive JSVal where
  | jnull
  | undef
  | jbool (b : Bool)
  | jnum (n : Int)
  | jstr (s : String)
  | jarr (elems : List JSVal)
  | jobj (fields : List (String × JSVal))

/-- First binding of a key in an object's field list.  Objects produced by
`JSON.parse` have distinct keys, so first-match lookup is exact for them. -/
def lookupField : List (String × JSVal) → String → Option JSVal
  | [], _ => none
  | (k, v) :: rest, key => if k = key then some v else lookupField rest key

/-- `x.hasOwnProperty(key)` for the non-index keys used by the code
("outcome", "error", ...): `true` only when the receiver is an object owning
the key; primitives box to wrappers owning no such key; a `null` or
`undefined` receiver throws a TypeError (`.error ()`). -/
def hasOwnProp : JSVal → String → Except Unit Bool
  | .jnull, _ => .error ()
  | .undef, _ => .error ()
  | .jobj fields, key => .ok (lookupField fields key).isSome
  | _, _ => .ok false

/-- Property read `x.key` (and destructuring `const { key } = x`) for the
non-index keys used by the code: a missing key yields `undefined`; primitives
yield `undefined`; a `null` or `undefined` receiver throws a TypeError. -/
def getProp : JSVal → String → Except Unit JSVal
  | .jnull, _ => .error ()
  | .undef, _ => .error ()
  | .jobj fields, key => .ok ((lookupField fields key).getD .undef)
  | _, _ => .ok .undef

mutual

/-- The JavaScript ToString coercion, applied by property-key positions such as
`__callbacks[body.outcome]` (array elements that are `null`/`undefined` join
as the empty string). -/
def jsToString : JSVal → String
  | .jnull => "null"
  | .undef => "undefined"
  | .jbool true => "true"
  | .jbool false => "false"
  | .jnum n => toString n
  | .jstr s => s
  | .jarr xs => String.intercalate "," (jsToStringElems xs)
  | .jobj _ => "[object Object]"

/-- ToString of the elements of an array, as `Array.prototype.join` sees them. -/
def jsToStringElems : List JSVal → List String
  | [] => []
  | .jnull :: vs => "" :: jsToStringElems vs
  | .undef :: vs => "" :: jsToStringElems vs
  | v :: vs => jsToString v :: jsToStringElems vs

end

/-- Handlers are opaque functions; the embedding identifies each one by a tag,
so that "exactly that handler fires with exactly that argument" is expressible. -/
abbrev HandlerId := Nat

/-- The per-call `__callbacks` object (line 71): a property table from outcome
name to handler. -/
abbrev CallbackTable := List (String × HandlerId)

/-- Property assignment `__callbacks[key] = h` (line 109): overwrites any
existing binding of `key`, otherwise appends. -/
def setCallback : CallbackTable → String → HandlerId → CallbackTable
  | [], key, h => [(key, h)]
  | (k, v) :: rest, key, h =>
    if k = key then (k, h) :: rest else (k, v) :: setCallback rest key h

/-- Property read `__callbacks[key]` on the callback table. -/
def lookupCallback : CallbackTable → String → Option HandlerId
  | [], _ => none
  | (k, v) :: rest, key => if k = key then some v else lookupCallback rest key

/-- The `body` argument a transport completion delivers to a response handler,
together with the outcome of `JSON.parse` where the code would parse it:
`alreadyObj v` is a body with `typeof body == 'object'`; `text s p` is a
string body `s` whose `JSON.parse` result is `p` (`none` = SyntaxError);
`missing` is an `undefined` body (`JSON.parse` then throws). -/
inductive RawBody where
  | alreadyObj (v : JSVal)
  | text (s : String) (parsed : Option JSVal)
  | missing

/-- Lines 88-93 of the `call` response handler: parse the body unless it is
already object-typed; a thrown parse error lands in `error` and leaves `body`
as delivered.  Returns the pair (error flag, body) after the try/catch. -/
def parseStage (error : Bool) : RawBody → Bool × JSVal
  | .alreadyObj v => (error, v)
  | .text _ (some v) => (error, v)
  | .text s none => (true, .jstr s)
  | .missing => (true, .undef)

/-- One handler invocation: which key's handler fired, the handler's identity,
and the argument it received. -/
abbrev Invocation := String × HandlerId × JSVal

/-- Lines 94-102 of the `call` response handler, after the parse stage:
dispatch on the error flag, the HTTP status and the body's `outcome` field.
Returns the ordered list of handler invocations the dispatch performs, or
`.error ()` when it throws a TypeError (property access on a `null` body). -/
def dispatchParsed (cbs : CallbackTable) (err : Bool) (statusCode : Nat)
    (body : JSVal) : Except Unit (List Invocation) :=
  if err || statusCode != 200 then
    match lookupCallback cbs "error" with
    | some h => .ok [("error", h, body)]
    | none => .ok []
  else
    match hasOwnProp body "outcome" with
    | .error _ => .error ()
    | .ok false =>
      match lookupCallback cbs "error" with
      | some h => .ok [("error", h, body)]
      | none => .ok []
    | .ok true =>
      match getProp body "outcome" with
      | .error _ => .error ()
      | .ok oc =>
        match lookupCallback cbs (jsToString oc) with
        | some h =>
          match getProp body "payload" with
          | .error _ => .error ()
          | .ok pay => .ok [(jsToString oc, h, pay)]
        | none => .ok []

/-- Lines 87-103: the whole response handler of `call`, as a function from the
registered callback table and the transport completion to the handler
invocations it performs. -/
def callResponse (cbs : CallbackTable) (error : Bool) (statusCode : Nat)
    (raw : RawBody) : Except Unit (List Invocation) :=
  let p := parseStage error raw
  dispatchParsed cbs p.1 statusCode p.2

/-- Number of handler invocations a dispatch result records (a thrown dispatch
invoked none: the only throw site precedes both handler call sites). -/
def invocationCount : Except Unit (List Invocation) → Nat
  | .error _ => 0
  | .ok l => l.length

/-- A JavaScript argument value as seen by `typeof` in the Registrar's `on`
(line 108): only the string/function distinction matters to the code. -/
inductive JSArg where
  | str (s : String)
  | fn (id : HandlerId)
  | num (n : Int)
  | undef
  | other

/-- `typeof e == 'string'`. -/
def typeofIsString : JSArg → Bool
  | .str _ => true
  | _ => false

/-- `typeof cb == 'function'`. -/
def typeofIsFunction : JSArg → Bool
  | .fn _ => true
  | _ => false

/-- The string thrown by `r.on` on invalid arguments (line 111). -/
def invalidMsg : String :=
  "Invalid event key and callback. Event key should be a string and callback should be a function."

/-- Lines 106-115: the Registrar's `on(e, cb)`.  `.ok t` is the callback table
after the assignment (the same Registrar object, whose closure now holds `t`,
is returned for chaining); `.error m` means the string `m` was thrown, before
any assignment. -/
def onRegister (t : CallbackTable) (e cb : JSArg) : Except String CallbackTable :=
  match e, cb with
  | .str s, .fn id => .ok (setCallback t s id)
  | _, _ => .error invalidMsg

/-- The `__callbacks` closure state after an `on(e, cb)` call returns or
throws: a throw happens before the assignment, so it leaves the table as is. -/
def tableAfterOn (t : CallbackTable) (e cb : JSArg) : CallbackTable :=
  match onRegister t e cb with
  | .ok t2 => t2
  | .error _ => t

/-- Line 126: the channel identity `user_id`. -/
def userId (pack event project key : String) : String :=
  s!"{pack}.{event}_{project}:{key}"

/-- Line 31-33: base URL of the webhook callback service. -/
def callbackBaseURL : String := "https://webhooks.rapidapi.io"

/-- Line 39-41: base URL of the websocket endpoint. -/
def websocketBaseURL : String := "ws://webhooks.rapidapi.io"

/-- Lowercase hexadecimal digit, as used by `JSON.stringify` unicode escapes. -/
def hexDigitLower (n : Nat) : Char :=
  if n < 10 then Char.ofNat (48 + n) else Char.ofNat (87 + (n % 16))

/-- `JSON.stringify` escaping of one character inside a string literal. -/
def escapeChar (c : Char) : String :=
  if c = Char.ofNat 34 then "\\\""
  else if c = Char.ofNat 92 then "\\\\"
  else if c = Char.ofNat 8 then "\\b"
  else if c = Char.ofNat 9 then "\\t"
  else if c = Char.ofNat 10 then "\\n"
  else if c = Char.ofNat 12 then "\\f"
  else if c = Char.ofNat 13 then "\\r"
  else if c.toNat < 32 then
    String.mk ['\\', 'u', '0', '0', hexDigitLower (c.toNat / 16), hexDigitLower (c.toNat % 16)]
  else String.singleton c

/-- `JSON.stringify` escaping of a whole string (without the quotes). -/
def escapeString (s : String) : String :=
  String.join (s.data.map escapeChar)

mutual

/-- `JSON.stringify`, on the value shapes `JSVal` models: `none` when the
value is `undefined` (stringify returns no string at all there); inside
objects, fields whose value stringifies to nothing are dropped; inside
arrays they become `null`. -/
def jsonStringify : JSVal → Option String
  | .jnull => some "null"
  | .undef => none
  | .jbool true => some "true"
  | .jbool false => some "false"
  | .jnum n => some (toString n)
  | .jstr s => some ("\"" ++ escapeString s ++ "\"")
  | .jarr xs => some ("[" ++ String.intercalate "," (stringifyElems xs) ++ "]")
  | .jobj fs => some ("\x7b" ++ String.intercalate "," (stringifyFields fs) ++ "\x7d")

/-- Array elements under `JSON.stringify`. -/
def stringifyElems : List JSVal → List String
  | [] => []
  | v :: vs => ((jsonStringify v).getD "null") :: stringifyElems vs

/-- Object fields under `JSON.stringify`, in insertion order. -/
def stringifyFields : List (String × JSVal) → List String
  | [] => []
  | (k, v) :: fs =>
    match jsonStringify v with
    | none => stringifyFields fs
    | some sv => ("\"" ++ escapeString k ++ "\":" ++ sv) :: stringifyFields fs

end

/-- `${JSON.stringify(v)}` inside a template literal: the stringified text, or
the text "undefined" when stringify returns no string. -/
def stringifyTemplate (v : JSVal) : String :=
  (jsonStringify v).getD "undefined"

/-- An outbound HTTP request as the `request` transport receives it. -/
structure HttpRequest where
  method : String
  uri : String
  contentType : String
  authUser : String
  authPass : String
deriving Repr, DecidableEq

/-- Lines 131-141: the token-exchange request issued by `listen`: a GET whose
query string is built by raw template-literal interpolation of `user_id` and
`JSON.stringify(params)`. -/
def tokenRequest (project key pack event : String) (params : JSVal) : HttpRequest :=
  { method := "GET"
  , uri := s!"{callbackBaseURL}/api/get_token?user_id={userId pack event project key}&params={stringifyTemplate params}"
  , contentType := "application/json"
  , authUser := project
  , authPass := key }

/-- Percent-encoding of one byte, uppercase hexadecimal. -/
def percentByte (n : Nat) : String :=
  let hexUpper : Nat → Char := fun d => if d < 10 then Char.ofNat (48 + d) else Char.ofNat (55 + (d % 16))
  String.mk ['%', hexUpper (n / 16 % 16), hexUpper (n % 16)]

/-- UTF-8 bytes of a character, as percent-encoding sees them. -/
def utf8Bytes (c : Char) : List Nat :=
  let n := c.toNat
  if n < 128 then [n]
  else if n < 2048 then [192 + n / 64, 128 + n % 64]
  else if n < 65536 then [224 + n / 4096, 128 + n / 64 % 64, 128 + n % 64]
  else [240 + n / 262144, 128 + n / 4096 % 64, 128 + n / 64 % 64, 128 + n % 64]

/-- Characters `encodeURIComponent` leaves unescaped. -/
def isURIUnescaped (c : Char) : Bool :=
  c.isAlphanum || c ∈ ['-', '_', '.', '!', '~', '*', Char.ofNat 39, '(', ')']

/-- Modelled from the spec: `encodeURIComponent`, the URL-encoding the spec's
`params={urlencoded-JSON}` wording refers to.  The source never calls it. -/
def encodeURIComponent (s : String) : String :=
  String.join (s.data.map fun c =>
    if isURIUnescaped c then String.singleton c
    else String.join ((utf8Bytes c).map percentByte))

/-- Modelled from the spec: the token-exchange URI as the spec's §6 wording
describes it, with the JSON text of `params` percent-encoded before being
placed in the query string.  To be compared against `tokenRequest`. -/
def specTokenURI (project key pack event : String) (params : JSVal) : String :=
  s!"{callbackBaseURL}/api/get_token?user_id={userId pack event project key}&params={encodeURIComponent (stringifyTemplate params)}"

set_option linter.unusedVariables false in
/-- Lines 142-145: the token-exchange response handler.  `parsed` is the
outcome of the unconditional `JSON.parse(body)` (`none` = throw; a transport
error leaves `body` undefined, whose parse also throws).  The bound transport
`error` argument is never consulted.  `.ok url` means a websocket is opened to
`url` (and only then are `onmessage`/`onclose`/`onopen` hooks attached);
`.error ()` means the handler threw: no socket is opened and neither
`onMessage` nor `onClose` can ever be invoked for this `listen` call. -/
def listenTokenResponse (error : Bool) (parsed : Option JSVal) : Except Unit String :=
  match parsed with
  | none => .error ()
  | some v =>
    match getProp v "token" with
    | .error _ => .error ()
    | .ok tok => .ok s!"{websocketBaseURL}/socket/websocket?token={jsToString tok}"

/-- `s.startsWith(pre)`: character-level prefix test (JavaScript's
`String.prototype.startsWith` on the well-formed strings JSON carries). -/
def jsStartsWith (s pre : String) : Bool :=
  pre.data.isPrefixOf s.data

/-- Lines 146-151: the `ws.onmessage` hook.  `parsed` is the outcome of
`JSON.parse(msg.data)`.  `.ok (some b)` means `onMessage(b)` is invoked;
`.ok none` means the frame is swallowed; `.error ()` means the hook threw
(parse failure, destructuring a non-object, `startsWith` on a non-string
event, or `payload.body` on a `null`/`undefined` payload). -/
def wsOnMessage (parsed : Option JSVal) : Except Unit (Option JSVal) :=
  match parsed with
  | none => .error ()
  | some frame =>
    match getProp frame "payload", getProp frame "event" with
    | .error _, _ => .error ()
    | _, .error _ => .error ()
    | .ok payload, .ok ev =>
      match ev with
      | .jstr s =>
        if jsStartsWith s "phx_" then .ok none
        else
          match getProp payload "body" with
          | .error _ => .error ()
          | .ok b => .ok (some b)
      | _ => .error ()

/-- Lines 156-161: the join frame built by the `ws.onopen` hook. -/
def joinFrame (uid : String) : JSVal :=
  .jobj [ ("topic", .jstr s!"users_socket:{uid}")
        , ("event", .jstr "phx_join")
        , ("payload", .jobj [])
        , ("ref", .jstr "1") ]

/-- Lines 155-162: the list of frames `ws.onopen` sends, serialized: exactly
the one join frame. -/
def onOpenSends (uid : String) : List String :=
  [stringifyTemplate (joinFrame uid)]

/-- The `callbacks` argument of `listen` as its destructuring on lines 127-130
sees it: absent/`undefined`/`null` (destructuring throws a TypeError), or an
object supplying optional `onMessage` and `onClose` handlers. -/
inductive CallbacksArg where
  | missing
  | given (onMessage : Option HandlerId) (onClose : Option HandlerId)

/-- Lines 125-141: the synchronous prefix of `listen`: compute `user_id`,
destructure `callbacks`, then hand the token-exchange request to the
transport.  `.error ()` means the destructuring threw before any request was
issued; `.ok req` means `req` went out. -/
def listenEntry (project key pack event : String) (params : JSVal)
    (callbacks : CallbacksArg) : Except Unit HttpRequest :=
  match callbacks with
  | .missing => .error ()
  | .given _ _ => .ok (tokenRequest project key pack event params)

/-!
Theorems.  One theorem per claim of the specification, with witnesses for the
theorems that carry hypotheses, and counterexamples where the code diverges
from the claim.
-/

/-- Helper: every branch of the dispatch performs at most one handler
invocation. -/
theorem dispatch_count (cbs : CallbackTable) (err : Bool) (status : Nat) (body : JSVal) :
    invocationCount (dispatchParsed cbs err status body) ≤ 1 := by
  unfold dispatchParsed
  split
  · rcases hl : lookupCallback cbs "error" with _ | h <;> simp [hl, invocationCount]
  · rcases hop : hasOwnProp body "outcome" with _ | b
    · simp [hop, invocationCount]
    · cases b
      · rcases hl : lookupCallback cbs "error" with _ | h <;> simp [hop, hl, invocationCount]
      · rcases hoc : getProp body "outcome" with _ | oc
        · simp [hop, hoc, invocationCount]
        · rcases hl : lookupCallback cbs (jsToString oc) with _ | h
          · simp [hop, hoc, hl, invocationCount]
          · rcases hpay : getProp body "payload" with _ | pay <;>
              simp [hop, hoc, hl, hpay, invocationCount]

/-- C1: when a `call` response arrives with no transport error, status 200 and
a parsed body owning an `outcome` field, the handler registered under the
string value of `outcome` — and no other — is invoked, with exactly the body's
`payload` field (`undefined` when absent) as sole argument; with no handler
registered under that name, no handler at all is invoked. -/
theorem call_success_dispatch (cbs : CallbackTable) (error : Bool) (status : Nat)
    (raw : RawBody) (fields : List (String × JSVal)) (oc : JSVal)
    (hp : parseStage error raw = (false, .jobj fields))
    (hs : status = 200)
    (hoc : lookupField fields "outcome" = some oc) :
    (∀ h, lookupCallback cbs (jsToString oc) = some h →
      callResponse cbs error status raw =
        .ok [(jsToString oc, h, (lookupField fields "payload").getD .undef)]) ∧
    (lookupCallback cbs (jsToString oc) = none →
      callResponse cbs error status raw = .ok []) := by
  subst hs
  simp only [callResponse, hp]
  constructor
  · intro h hl
    simp [dispatchParsed, hasOwnProp, getProp, hoc, hl]
  · intro hl
    simp [dispatchParsed, hasOwnProp, getProp, hoc, hl]

/-- Witness for C1: a 200 response whose body parses to
`{"outcome":"ok","payload":"hi"}` invokes exactly the handler registered
under "ok", with "hi", even with an "error" handler also registered. -/
theorem call_success_dispatch_witness :
    callResponse [("ok", 7), ("error", 3)] false 200
      (.text "\x7b\"outcome\":\"ok\",\"payload\":\"hi\"\x7d"
        (some (.jobj [("outcome", .jstr "ok"), ("payload", .jstr "hi")]))) =
      .ok [("ok", 7, .jstr "hi")] :=
  ((call_success_dispatch [("ok", 7), ("error", 3)] false 200
      (.text "\x7b\"outcome\":\"ok\",\"payload\":\"hi\"\x7d"
        (some (.jobj [("outcome", .jstr "ok"), ("payload", .jstr "hi")])))
      [("outcome", .jstr "ok"), ("payload", .jstr "hi")] (.jstr "ok")
      rfl rfl rfl).1 7 rfl).trans rfl

/-- C2 counterexample: the claim predicts that a 200 response whose parsed
body lacks an `outcome` field routes to a registered "error" handler; but for
the body text "null" (which parses to `null`) the dispatch instead throws a
TypeError at `body.hasOwnProperty('outcome')` and invokes no handler at all —
neither with the parsed `null` nor with the raw text. -/
theorem call_null_body_counterexample :
    callResponse [("error", 0)] false 200 (.text "null" (some .jnull)) = .error () ∧
    callResponse [("error", 0)] false 200 (.text "null" (some .jnull)) ≠
      .ok [("error", 0, .jnull)] ∧
    callResponse [("error", 0)] false 200 (.text "null" (some .jnull)) ≠
      .ok [("error", 0, .jstr "null")] :=
  ⟨rfl, fun h => Except.noConfusion h, fun h => Except.noConfusion h⟩

/-- C2 (amended): when a `call` response completes with a transport error, a
parse failure, a non-200 status, or a parsed body — other than `null` or
`undefined` — lacking an `outcome` field, the "error" handler, if registered,
is the only handler invoked, with the post-parse body value as argument, and
with no "error" handler nothing is invoked; when instead the parsed body is
`null`/`undefined` at status 200 with no error flag, the dispatch throws and
no handler is invoked. -/
theorem call_failure_dispatch (cbs : CallbackTable) (error : Bool) (status : Nat)
    (raw : RawBody) (err : Bool) (body : JSVal)
    (hp : parseStage error raw = (err, body)) :
    ((err = true ∨ status ≠ 200 ∨ hasOwnProp body "outcome" = .ok false) →
      (∀ h, lookupCallback cbs "error" = some h →
        callResponse cbs error status raw = .ok [("error", h, body)]) ∧
      (lookupCallback cbs "error" = none →
        callResponse cbs error status raw = .ok []))
    ∧ (err = false → status = 200 → hasOwnProp body "outcome" = .error () →
        callResponse cbs error status raw = .error ()) := by
  simp only [callResponse, hp]
  constructor
  · intro hfail
    by_cases hc : (err || status != 200) = true
    · constructor
      · intro h hl; simp [dispatchParsed, hc, hl]
      · intro hl; simp [dispatchParsed, hc, hl]
    · have he : err = false := by
        cases err <;> simp_all
      have hst : status = 200 := by
        cases hc2 : status == 200 <;> simp_all
      have hop : hasOwnProp body "outcome" = .ok false := by
        rcases hfail with h1 | h2 | h3
        · simp [he] at h1
        · exact absurd hst h2
        · exact h3
      constructor
      · intro h hl; simp [dispatchParsed, he, hst, hop, hl]
      · intro hl; simp [dispatchParsed, he, hst, hop, hl]
  · intro he hst hop
    simp [dispatchParsed, he, hst, hop]

/-- Witness for C2: a transport error (body undelivered) invokes exactly the
registered "error" handler, with the undefined body. -/
theorem call_failure_dispatch_witness :
    callResponse [("error", 5)] true 200 .missing = .ok [("error", 5, .undef)] :=
  ((call_failure_dispatch [("error", 5)] true 200 .missing true .undef rfl).1
    (Or.inl rfl)).1 5 rfl

/-- C3: an inbound frame whose parse yields an `event` string and a `payload`
from which `body` is readable is swallowed exactly when the event begins with
"phx_", and otherwise `onMessage` is invoked with exactly `payload.body`. -/
theorem listen_frame_filter (frame : JSVal) (e : String) (payload b : JSVal)
    (hev : getProp frame "event" = .ok (.jstr e))
    (hpl : getProp frame "payload" = .ok payload)
    (hb : getProp payload "body" = .ok b) :
    wsOnMessage (some frame) = .ok (if jsStartsWith e "phx_" then none else some b) := by
  simp only [wsOnMessage]
  rw [hev, hpl]
  by_cases hs : jsStartsWith e "phx_" <;> simp [hs, hb]

/-- Witness for C3: the frame {"event":"phx_reply","payload":{"body":"x"}} is
swallowed, while {"event":"alert_fired","payload":{"body":"x"}} reaches
`onMessage` with exactly "x". -/
theorem listen_frame_filter_witness :
    wsOnMessage (some (.jobj [("event", .jstr "phx_reply"),
        ("payload", .jobj [("body", .jstr "x")])])) = .ok none ∧
    wsOnMessage (some (.jobj [("event", .jstr "alert_fired"),
        ("payload", .jobj [("body", .jstr "x")])])) = .ok (some (.jstr "x")) :=
  ⟨(listen_frame_filter (.jobj [("event", .jstr "phx_reply"),
        ("payload", .jobj [("body", .jstr "x")])]) "phx_reply"
        (.jobj [("body", .jstr "x")]) (.jstr "x") rfl rfl rfl).trans rfl,
   (listen_frame_filter (.jobj [("event", .jstr "alert_fired"),
        ("payload", .jobj [("body", .jstr "x")])]) "alert_fired"
        (.jobj [("body", .jstr "x")]) (.jstr "x") rfl rfl rfl).trans rfl⟩

/-- C4: the channel identity computed on line 126 is exactly
pack, ".", event, "_", project, ":", key concatenated; in particular
("weather", "alert", "p1", "k1") yields "weather.alert_p1:k1". -/
theorem channel_identity_format :
    (∀ pack event project key, userId pack event project key =
      pack ++ "." ++ event ++ "_" ++ project ++ ":" ++ key) ∧
    userId "weather" "alert" "p1" "k1" = "weather.alert_p1:k1" := by
  constructor
  · intro p e pr k
    simp [userId, String.append_assoc, instToStringString, String.append_empty,
      String.empty_append]
  · rfl

/-- C5: `on(e, cb)` with a non-string key or a non-callable handler throws the
InvalidArgument message synchronously and leaves the callback table unchanged;
with well-typed arguments it stores the handler under the key and returns the
same Registrar, so that registrations chain. -/
theorem registrar_on_spec (t : CallbackTable) (e cb : JSArg) :
    ((typeofIsString e = false ∨ typeofIsFunction cb = false) →
      onRegister t e cb = .error invalidMsg ∧ tableAfterOn t e cb = t) ∧
    (∀ s id, e = .str s → cb = .fn id →
      onRegister t e cb = .ok (setCallback t s id) ∧
      tableAfterOn t e cb = setCallback t s id) ∧
    (∀ s id s2 id2,
      (onRegister t (.str s) (.fn id)).bind
          (fun t2 => onRegister t2 (.str s2) (.fn id2)) =
        .ok (setCallback (setCallback t s id) s2 id2)) := by
  refine ⟨?_, ?_, ?_⟩
  · intro hbad
    cases e <;> cases cb <;>
      simp_all [onRegister, tableAfterOn, typeofIsString, typeofIsFunction]
  · intro s id he hcb
    subst he; subst hcb
    simp [onRegister, tableAfterOn]
  · intro s id s2 id2
    simp [onRegister, Except.bind]

/-- Witness for C5: registering with a numeric key throws the InvalidArgument
message, and a well-typed registration stores the handler and chains. -/
theorem registrar_on_witness :
    onRegister [] (.num 3) (.fn 0) = .error invalidMsg ∧
    onRegister [("a", 1)] (.str "ok") (.fn 4) = .ok [("a", 1), ("ok", 4)] :=
  ⟨((registrar_on_spec [] (.num 3) (.fn 0)).1 (Or.inl rfl)).1,
   ((registrar_on_spec [("a", 1)] (.str "ok") (.fn 4)).2.1 "ok" 4 rfl rfl).1⟩

/-- C6: whatever the registered table, transport error flag, status and body,
completing the single round trip of a `call` invokes at most one handler —
never two handlers and never one handler twice. -/
theorem at_most_one_handler (cbs : CallbackTable) (error : Bool) (status : Nat)
    (raw : RawBody) :
    invocationCount (callResponse cbs error status raw) ≤ 1 := by
  unfold callResponse
  exact dispatch_count cbs _ status _

/-- C7: on socket open exactly one join message is sent, whose frame carries
topic "users_socket:{ChannelIdentity}", event "phx_join", empty payload and
ref "1"; concretely serialized for the identity "weather.alert_p1:k1". -/
theorem join_message_spec :
    (∀ uid,
      (onOpenSends uid).length = 1 ∧
      onOpenSends uid = [stringifyTemplate (joinFrame uid)] ∧
      getProp (joinFrame uid) "topic" = .ok (.jstr ("users_socket:" ++ uid)) ∧
      getProp (joinFrame uid) "event" = .ok (.jstr "phx_join") ∧
      getProp (joinFrame uid) "payload" = .ok (.jobj []) ∧
      getProp (joinFrame uid) "ref" = .ok (.jstr "1")) ∧
    onOpenSends "weather.alert_p1:k1" =
      ["\x7b\"topic\":\"users_socket:weather.alert_p1:k1\",\"event\":\"phx_join\",\"payload\":\x7b\x7d,\"ref\":\"1\"\x7d"] := by
  constructor
  · intro uid
    refine ⟨rfl, rfl, ?_, rfl, rfl, rfl⟩
    simp [joinFrame, getProp, lookupField, instToStringString, String.append_assoc,
      String.append_empty, String.empty_append]
  · rfl

/-- C8 counterexample: the claim says the `params` query value is the
URL-encoded JSON text of `params`; at params = {"a":"b"} the URI the code
builds differs from the URI with the percent-encoded JSON text. -/
theorem token_params_encoding_counterexample :
    (tokenRequest "p1" "k1" "weather" "alert" (.jobj [("a", .jstr "b")])).uri ≠
      specTokenURI "p1" "k1" "weather" "alert" (.jobj [("a", .jstr "b")]) := by
  decide

/-- C8 (amended): the token-exchange request is a GET to the callback base's
/api/get_token with basic auth (project, key), Content-Type application/json,
`user_id` the channel identity and `params` the RAW JSON serialization of the
params argument, interpolated without percent-encoding; concretely, for
params = {"a":"b"} the URI carries the JSON text verbatim. -/
theorem token_request_format :
    (∀ project key pack event params,
      tokenRequest project key pack event params =
        { method := "GET"
        , uri := callbackBaseURL ++ "/api/get_token?user_id=" ++
            (pack ++ "." ++ event ++ "_" ++ project ++ ":" ++ key) ++ "&params=" ++
            stringifyTemplate params
        , contentType := "application/json"
        , authUser := project
        , authPass := key }) ∧
    (tokenRequest "p1" "k1" "weather" "alert" (.jobj [("a", .jstr "b")])).uri =
      "https://webhooks.rapidapi.io/api/get_token?user_id=weather.alert_p1:k1&params=\x7b\"a\":\"b\"\x7d" := by
  constructor
  · intro project key pack event params
    simp [tokenRequest, userId, callbackBaseURL, String.append_assoc,
      instToStringString, String.append_empty, String.empty_append]
  · rfl

/-- C9: a token-exchange completion whose body does not parse (including the
undefined body of a transport error) makes the handler throw before any socket
is opened — so no socket hook, hence neither onMessage nor onClose, can ever
run — and the handler's behavior never depends on the transport error
argument, which the code ignores. -/
theorem token_failure_unhandled :
    (∀ error, listenTokenResponse error none = .error ()) ∧
    (∀ e1 e2 parsed, listenTokenResponse e1 parsed = listenTokenResponse e2 parsed) :=
  ⟨fun _ => rfl, fun _ _ _ => rfl⟩

/-- C10: calling listen with the callbacks container absent (undefined or
null) throws synchronously at the destructuring, before the token request is
handed to the transport; supplying a container — even one omitting both
handlers — issues the request. -/
theorem listen_requires_callbacks :
    ∀ project key pack event params,
      listenEntry project key pack event params .missing = .error () ∧
      ∀ om oc, listenEntry project key pack event params (.given om oc) =
        .ok (tokenRequest project key pack event params) :=
  fun _ _ _ _ _ => ⟨rfl, fun _ _ => rfl⟩

end RapidAPI
